import Mathlib

/-!
Shallow embedding of the filter-and-aggregate core of the Global AI Content
Impact Analysis dashboard (src/app.py) and proofs of its specified
properties.

The dataset is a pandas DataFrame; we model it as a list of records, one per
row, in file order.  The numeric percentage columns are modelled as exact
rationals.  Pandas operations used by the app are modelled faithfully:
boolean-mask filtering (`df[mask]`) keeps rows in order; `Series.between` is
inclusive on both ends; `Series.isin` tests membership in the selected list;
`groupby(k)[m].mean()` emits one row per distinct key, sorted ascending
(pandas `sort=True` default), with the arithmetic mean of the metric over the
group; `Series.mean()` on an empty series yields NaN (modelled by a dedicated
`PFloat.nan` constructor); `DataFrame.corr()` computes pairwise Pearson
correlations and yields NaN when the divisor `sqrt(Sxx)*sqrt(Syy)` is zero or
fewer than two observations are present.
-/

/-- One row of `Global_AI_Content_Impact_Dataset.csv`, as consumed by
src/app.py: `Year`, `Country`, `Industry`, `Top AI Tools Used`,
`Regulation Status` and the four numeric percentage metrics. -/
structure Record where
  year : Int
  country : String
  industry : String
  topAiTool : String
  regulationStatus : String
  aiAdoptionRate : ℚ
  jobLossRate : ℚ
  revenueIncreaseRate : ℚ
  humanAiCollaborationRate : ℚ
deriving DecidableEq, Repr

/-- The four numeric metric columns of the dataset. -/
inductive Metric where
  | adoption
  | jobLoss
  | revenue
  | collaboration
deriving DecidableEq, Repr

/-- Column accessor for a metric. -/
def Metric.get : Metric → Record → ℚ
  | .adoption => Record.aiAdoptionRate
  | .jobLoss => Record.jobLossRate
  | .revenue => Record.revenueIncreaseRate
  | .collaboration => Record.humanAiCollaborationRate

/-- The sidebar filter state of src/app.py: the year-range slider value and
the four multiselect values (`selected_countries`, `selected_industries`,
`selected_tools`, `selected_reg`). -/
structure FilterCriteria where
  yearMin : Int
  yearMax : Int
  countries : List String
  industries : List String
  topAiTools : List String
  regulationStatuses : List String
deriving DecidableEq, Repr

/-- The row predicate of the boolean mask at src/app.py:108-114:
`df['Year'].between(lo, hi) & df['Country'].isin(...) &
df['Industry'].isin(...) & df['Top AI Tools Used'].isin(...) &
df['Regulation Status'].isin(...)`.  `between` is inclusive on both ends
(pandas default); `isin` is membership in the selected list. -/
def matchesRow (c : FilterCriteria) (r : Record) : Bool :=
  (c.yearMin ≤ r.year && r.year ≤ c.yearMax) &&
    c.countries.contains r.country &&
    c.industries.contains r.industry &&
    c.topAiTools.contains r.topAiTool &&
    c.regulationStatuses.contains r.regulationStatus

/-- `filtered_df = df[mask]` (src/app.py:108-114): boolean-mask selection
keeps exactly the rows where the mask is true, in dataframe order. -/
def filtered_df (d : List Record) (c : FilterCriteria) : List Record :=
  d.filter (matchesRow c)

/-- The spec's conjunctive FilteredView predicate, written from the spec's
words: `yearRange.min <= year <= yearRange.max AND country ∈ countries AND
industry ∈ industries AND topAiTool ∈ topAiTools AND
regulationStatus ∈ regulationStatuses`. -/
def matchesSpec (c : FilterCriteria) (r : Record) : Prop :=
  c.yearMin ≤ r.year ∧ r.year ≤ c.yearMax ∧ r.country ∈ c.countries ∧
    r.industry ∈ c.industries ∧ r.topAiTool ∈ c.topAiTools ∧
    r.regulationStatus ∈ c.regulationStatuses

instance (c : FilterCriteria) (r : Record) : Decidable (matchesSpec c r) := by
  unfold matchesSpec; infer_instance

theorem matchesRow_eq_decide_matchesSpec (c : FilterCriteria) (r : Record) :
    matchesRow c r = decide (matchesSpec c r) := by
  simp [matchesRow, matchesSpec, Bool.and_assoc]

/-- `FilterCriteria` with values absent from the dataset removed from every
set-valued field. -/
def pruneCriteria (d : List Record) (c : FilterCriteria) : FilterCriteria :=
  { c with
    countries := c.countries.filter fun x => (d.map Record.country).contains x
    industries := c.industries.filter fun x => (d.map Record.industry).contains x
    topAiTools := c.topAiTools.filter fun x => (d.map Record.topAiTool).contains x
    regulationStatuses :=
      c.regulationStatuses.filter fun x =>
        (d.map Record.regulationStatus).contains x }

/-- C2: if any set-valued field of the criteria is the empty set, the
filtered view is empty, whatever the other fields hold. -/
theorem filtered_df_empty_of_empty_set_field (d : List Record)
    (c : FilterCriteria)
    (h : c.countries = [] ∨ c.industries = [] ∨ c.topAiTools = [] ∨
      c.regulationStatuses = []) :
    filtered_df d c = [] := by
  have hfalse : ∀ r : Record, matchesRow c r = false := by
    intro r
    rcases h with h | h | h | h <;>
      simp [matchesRow, h]
  simp [filtered_df, List.filter_eq_nil_iff]
  intro r _
  simp [hfalse r]

theorem filtered_df_empty_witness :
    ((⟨2020, 2021, [], ["Media"], ["GPT-4"], ["Strict"]⟩ :
        FilterCriteria).countries = [] ∨
      (⟨2020, 2021, [], ["Media"], ["GPT-4"], ["Strict"]⟩ :
        FilterCriteria).industries = [] ∨
      (⟨2020, 2021, [], ["Media"], ["GPT-4"], ["Strict"]⟩ :
        FilterCriteria).topAiTools = [] ∨
      (⟨2020, 2021, [], ["Media"], ["GPT-4"], ["Strict"]⟩ :
        FilterCriteria).regulationStatuses = []) ∧
    filtered_df
      [⟨2020, "USA", "Media", "GPT-4", "Strict", 10, 5, 20, 50⟩]
      ⟨2020, 2021, [], ["Media"], ["GPT-4"], ["Strict"]⟩ = [] :=
  ⟨Or.inl rfl,
    filtered_df_empty_of_empty_set_field _ _ (Or.inl rfl)⟩

/-- C3: the filtered view is exactly the ordered subsequence of the dataset
satisfying the spec's conjunctive predicate: it equals the filter of the
dataset by that predicate, and it is a sublist of the dataset (so any two
records both present keep their relative order). -/
theorem filtered_df_eq_spec_filter_and_sublist (d : List Record)
    (c : FilterCriteria) :
    filtered_df d c = d.filter (fun r => decide (matchesSpec c r)) ∧
      List.Sublist (filtered_df d c) d := by
  constructor
  · unfold filtered_df
    congr 1
    funext r
    exact matchesRow_eq_decide_matchesSpec c r
  · exact List.filter_sublist d

/-- C4: a year range with min strictly greater than max matches no row, so
the filtered view is empty (the bounds are not swapped). -/
theorem filtered_df_empty_of_min_gt_max (d : List Record)
    (c : FilterCriteria) (h : c.yearMax < c.yearMin) :
    filtered_df d c = [] := by
  simp [filtered_df, List.filter_eq_nil_iff]
  intro r _
  simp [matchesRow]
  intro h1 h2
  exact absurd (le_trans h1 h2) (not_le.mpr h)

theorem filtered_df_min_gt_max_witness :
    ((⟨2024, 2020, ["USA"], ["Media"], ["GPT-4"], ["Strict"]⟩ :
        FilterCriteria).yearMax <
      (⟨2024, 2020, ["USA"], ["Media"], ["GPT-4"], ["Strict"]⟩ :
        FilterCriteria).yearMin) ∧
    filtered_df
      [⟨2020, "USA", "Media", "GPT-4", "Strict", 10, 5, 20, 50⟩,
        ⟨2021, "USA", "Media", "GPT-4", "Strict", 20, 5, 30, 60⟩]
      ⟨2024, 2020, ["USA"], ["Media"], ["GPT-4"], ["Strict"]⟩ = [] :=
  ⟨by decide, filtered_df_empty_of_min_gt_max _ _ (by decide)⟩

/-- C5: criteria values that occur in no record of the dataset never match,
so removing them from every set-valued field leaves the filtered view
unchanged (and the filter itself is a total function: it never raises). -/
theorem filtered_df_prune_absent (d : List Record) (c : FilterCriteria) :
    filtered_df d (pruneCriteria d c) = filtered_df d c := by
  unfold filtered_df
  apply List.filter_congr
  intro r hr
  have e1 : ∃ a ∈ d, a.country = r.country := ⟨r, hr, rfl⟩
  have e2 : ∃ a ∈ d, a.industry = r.industry := ⟨r, hr, rfl⟩
  have e3 : ∃ a ∈ d, a.topAiTool = r.topAiTool := ⟨r, hr, rfl⟩
  have e4 : ∃ a ∈ d, a.regulationStatus = r.regulationStatus := ⟨r, hr, rfl⟩
  simp [matchesRow, pruneCriteria, e1, e2, e3, e4, Bool.and_assoc]

/-- A pandas float as produced by `Series.mean()`: NaN on an empty series
(pandas silently yields NaN, not an error), otherwise the arithmetic mean.
The NaN case is modelled by a dedicated constructor so that it is
distinguishable from every numeric value. -/
inductive PFloat where
  | nan
  | val (q : ℚ)
deriving DecidableEq, Repr

/-- pandas `Series.mean()`: NaN when the series is empty, else sum divided
by count. -/
def seriesMean (xs : List ℚ) : PFloat :=
  if xs.isEmpty then PFloat.nan else PFloat.val (xs.sum / xs.length)

/-- Column extraction `filtered_df[metricColumn]`. -/
def col (m : Metric) (v : List Record) : List ℚ :=
  v.map m.get

/-- `avg_adoption = filtered_df['AI Adoption Rate (%)'].mean()`
(src/app.py:121); the value is then formatted with `f"{avg_adoption:.2f}%"`
into the KPI card (src/app.py:124), with no empty-view branch. -/
def avg_adoption (v : List Record) : PFloat :=
  seriesMean (col Metric.adoption v)

/-- The three-record dataset of the spec's §8 scenario. -/
def specDataset : List Record :=
  [⟨2020, "USA", "Media", "GPT-4", "Strict", 10, 5, 20, 50⟩,
    ⟨2021, "USA", "Media", "GPT-4", "Strict", 20, 5, 30, 60⟩,
    ⟨2020, "UK", "Media", "GPT-4", "Strict", 15, 10, 25, 40⟩]

/-- C1: on an empty filtered view (here: criteria whose country set is
empty) the code computes `mean()` of an empty series, which is NaN — a
numeric float that then flows into the formatted KPI string — rather than
any explicit "no data" signal. -/
theorem avg_adoption_nan_on_empty_view :
    filtered_df specDataset
        ⟨2020, 2021, [], ["Media"], ["GPT-4"], ["Strict"]⟩ = [] ∧
      avg_adoption
          (filtered_df specDataset
            ⟨2020, 2021, [], ["Media"], ["GPT-4"], ["Strict"]⟩) =
        PFloat.nan := by
  exact ⟨rfl, rfl⟩

/-- Distinct group keys in ascending order, as pandas `groupby(key)` with
its default `sort=True` produces them. -/
def groupKeys {κ : Type} [LinearOrder κ] [DecidableEq κ]
    (key : Record → κ) (v : List Record) : List κ :=
  List.insertionSort (fun a b => a ≤ b) ((v.map key).dedup)

/-- `filtered_df.groupby(key)[metric].mean()` (src/app.py:184, and the
`.agg` means at 217, 237, 298): one row per distinct key value present in
the view, keys in ascending order, each row carrying the arithmetic mean of
the metric over that group. -/
def meanByGroup {κ : Type} [LinearOrder κ] [DecidableEq κ]
    (key : Record → κ) (metric : Record → ℚ) (v : List Record) :
    List (κ × ℚ) :=
  (groupKeys key v).map fun k =>
    (k, ((v.filter fun r => decide (key r = k)).map metric).sum /
        ((v.filter fun r => decide (key r = k)).length : ℚ))

/-- C6: over an empty filtered view, the grouped mean emits no rows at all
— for each of the four grouping keys and every metric — rather than
raising. -/
theorem meanByGroup_empty_view (metric : Record → ℚ) :
    meanByGroup Record.year metric [] = [] ∧
      meanByGroup Record.country metric [] = [] ∧
      meanByGroup Record.industry metric [] = [] ∧
      meanByGroup Record.topAiTool metric [] = [] :=
  ⟨rfl, rfl, rfl, rfl⟩

/-- C10: the grouped-mean mapping is ordered strictly ascending by group
key — the keys appear sorted, not in first-occurrence order — for every
grouping key and every metric. -/
theorem meanByGroup_keys_sorted {κ : Type} [LinearOrder κ] [DecidableEq κ]
    (key : Record → κ) (metric : Record → ℚ) (v : List Record) :
    List.Sorted (fun a b => a < b)
      ((meanByGroup key metric v).map Prod.fst) := by
  have hmap : (meanByGroup key metric v).map Prod.fst = groupKeys key v := by
    unfold meanByGroup
    rw [List.map_map]
    have hcomp :
        (Prod.fst ∘ fun k : κ =>
          (k, ((v.filter fun r => decide (key r = k)).map metric).sum /
            ((v.filter fun r => decide (key r = k)).length : ℚ))) = id := by
      funext k
      rfl
    rw [hcomp, List.map_id]
  rw [hmap]
  have hsorted : List.Sorted (fun a b => a ≤ b) (groupKeys key v) :=
    List.sorted_insertionSort _ _
  have hnodup : (groupKeys key v).Nodup :=
    (List.perm_insertionSort _ _).nodup_iff.mpr (List.nodup_dedup _)
  exact hsorted.lt_of_le hnodup

theorem meanByGroup_keys_sorted_witness :
    List.Sorted (fun a b => a < b)
      ((meanByGroup Record.country Record.aiAdoptionRate specDataset).map
        Prod.fst) :=
  meanByGroup_keys_sorted Record.country Record.aiAdoptionRate specDataset

/-- The radar-chart series construction (src/app.py:248-249):
`values = [row[cat] for cat in categories]; values += values[:1]`.
`values[:1]` is the one-element prefix, i.e. `take 1`. -/
def radarValues {α : Type} (categories : List α) (row : α → ℚ) : List ℚ :=
  (categories.map row) ++ (categories.map row).take 1

/-- The radar-chart angular labels (src/app.py:252):
`theta = categories + [categories[0]]`; for the app's (non-empty, literal)
category list, `[categories[0]]` is exactly `take 1`. -/
def radarTheta {α : Type} (categories : List α) : List α :=
  categories ++ categories.take 1

/-- C8: for a four-category radar row, the adapter appends the first
category value at the end of the series and the first category label at the
end of the theta labels, closing the polar loop. -/
theorem radar_loop_closed {α : Type} (a b c d : α) (row : α → ℚ) :
    radarValues [a, b, c, d] row = [row a, row b, row c, row d, row a] ∧
      radarTheta [a, b, c, d] = [a, b, c, d, a] :=
  ⟨rfl, rfl⟩

/-- C9: filtering is monotone in the criteria — widening the year range and
enlarging every set field can only add records, and the narrower view is a
sublist (same relative order) of the wider one. -/
theorem filtered_df_monotone (d : List Record) (c₁ c₂ : FilterCriteria)
    (hymin : c₂.yearMin ≤ c₁.yearMin) (hymax : c₁.yearMax ≤ c₂.yearMax)
    (hc : ∀ x ∈ c₁.countries, x ∈ c₂.countries)
    (hi : ∀ x ∈ c₁.industries, x ∈ c₂.industries)
    (ht : ∀ x ∈ c₁.topAiTools, x ∈ c₂.topAiTools)
    (hg : ∀ x ∈ c₁.regulationStatuses, x ∈ c₂.regulationStatuses) :
    List.Sublist (filtered_df d c₁) (filtered_df d c₂) := by
  unfold filtered_df
  apply List.monotone_filter_right
  intro r hmatch
  simp [matchesRow, Bool.and_assoc] at hmatch ⊢
  obtain ⟨h1, h2, h3, h4, h5, h6⟩ := hmatch
  exact ⟨le_trans hymin h1, le_trans h2 hymax, hc _ h3, hi _ h4, ht _ h5,
    hg _ h6⟩

theorem filtered_df_monotone_witness :
    ((⟨2020, 2021, ["USA", "UK"], ["Media"], ["GPT-4"], ["Strict"]⟩ :
          FilterCriteria).yearMin ≤
        (⟨2020, 2020, ["USA"], ["Media"], ["GPT-4"], ["Strict"]⟩ :
          FilterCriteria).yearMin) ∧
      (∀ x ∈ (["USA"] : List String), x ∈ (["USA", "UK"] : List String)) ∧
      List.Sublist
        (filtered_df specDataset
          ⟨2020, 2020, ["USA"], ["Media"], ["GPT-4"], ["Strict"]⟩)
        (filtered_df specDataset
          ⟨2020, 2021, ["USA", "UK"], ["Media"], ["GPT-4"], ["Strict"]⟩) :=
  ⟨by decide, by decide,
    filtered_df_monotone specDataset
      ⟨2020, 2020, ["USA"], ["Media"], ["GPT-4"], ["Strict"]⟩
      ⟨2020, 2021, ["USA", "UK"], ["Media"], ["GPT-4"], ["Strict"]⟩
      (by decide) (by decide) (by decide) (by decide) (by decide)
      (by decide)⟩

/-- Arithmetic mean of a column, as used inside the pandas correlation
computation. -/
def colMean (xs : List ℚ) : ℚ :=
  xs.sum / (xs.length : ℚ)

/-- Centered cross-product sum `Σ (xᵢ - x̄)(yᵢ - ȳ)`, the shared building
block of variance and covariance in pandas' pairwise Pearson computation. -/
def sxy (xs ys : List ℚ) : ℚ :=
  ((xs.zip ys).map fun p => (p.1 - colMean xs) * (p.2 - colMean ys)).sum

/-- One entry of `filtered_df[metrics].corr()` (src/app.py:282-287).
pandas computes `cov(x,y) / (sqrt(var x) * sqrt(var y))` pairwise and
yields NaN (modelled as `none`) exactly when the divisor is zero — fewer
than two observations, or either column of zero variance; the `(n-1)`
normalizations of covariance and variance cancel, leaving the centered
sums. -/
noncomputable def corrEntry (xs ys : List ℚ) : Option ℝ :=
  if xs.length < 2 ∨ sxy xs xs = 0 ∨ sxy ys ys = 0 then none
  else
    some ((sxy xs ys : ℝ) /
      (Real.sqrt (sxy xs xs) * Real.sqrt (sxy ys ys)))

/-- `corr_matrix` (src/app.py:282-287): the metric-by-metric matrix of
pairwise Pearson correlations over the filtered view. -/
noncomputable def corr_matrix (v : List Record) (m₁ m₂ : Metric) :
    Option ℝ :=
  corrEntry (col m₁ v) (col m₂ v)

theorem sxy_swap_sum (a b : ℚ) :
    ∀ xs ys : List ℚ,
      ((xs.zip ys).map fun p => (p.1 - a) * (p.2 - b)).sum =
        ((ys.zip xs).map fun p => (p.1 - b) * (p.2 - a)).sum
  | [], ys => by cases ys <;> simp
  | x :: xs, [] => by simp
  | x :: xs, y :: ys => by
    simp only [List.zip_cons_cons, List.map_cons, List.sum_cons,
      sxy_swap_sum a b xs ys]
    ring

theorem sxy_comm (xs ys : List ℚ) : sxy xs ys = sxy ys xs := by
  unfold sxy
  exact sxy_swap_sum (colMean xs) (colMean ys) xs ys

theorem zip_self_eq : ∀ xs : List ℚ, xs.zip xs = xs.map fun x => (x, x)
  | [] => rfl
  | x :: xs => by simp [zip_self_eq xs]

theorem sxy_self_nonneg (xs : List ℚ) : 0 ≤ sxy xs xs := by
  unfold sxy
  rw [zip_self_eq, List.map_map]
  apply List.sum_nonneg
  intro q hq
  simp [Function.comp] at hq
  obtain ⟨x, _, hx⟩ := hq
  rw [← hx]
  exact mul_self_nonneg _

theorem corr_matrix_symm_aux (v : List Record) (m₁ m₂ : Metric) :
    corr_matrix v m₁ m₂ = corr_matrix v m₂ m₁ := by
  unfold corr_matrix corrEntry
  have hlen : (col m₁ v).length = (col m₂ v).length := by simp [col]
  have hiff : ((col m₁ v).length < 2 ∨ sxy (col m₁ v) (col m₁ v) = 0 ∨
      sxy (col m₂ v) (col m₂ v) = 0) ↔
      ((col m₂ v).length < 2 ∨ sxy (col m₂ v) (col m₂ v) = 0 ∨
      sxy (col m₁ v) (col m₁ v) = 0) := by
    rw [hlen]
    tauto
  by_cases h : (col m₁ v).length < 2 ∨ sxy (col m₁ v) (col m₁ v) = 0 ∨
      sxy (col m₂ v) (col m₂ v) = 0
  · rw [if_pos h, if_pos (hiff.mp h)]
  · rw [if_neg h, if_neg (fun hk => h (hiff.mpr hk))]
    rw [sxy_comm (col m₁ v) (col m₂ v), mul_comm]

theorem corr_matrix_diag_aux (v : List Record) (m : Metric)
    (h2 : 2 ≤ v.length) (hS : sxy (col m v) (col m v) ≠ 0) :
    corr_matrix v m m = some 1 := by
  unfold corr_matrix corrEntry
  have hlen : (col m v).length = v.length := by simp [col]
  rw [if_neg]
  · congr 1
    have hnn : (0 : ℝ) ≤ ((sxy (col m v) (col m v) : ℚ) : ℝ) := by
      exact_mod_cast sxy_self_nonneg (col m v)
    rw [Real.mul_self_sqrt hnn]
    apply div_self
    exact_mod_cast hS
  · push_neg
    refine ⟨?_, hS, hS⟩
    rw [hlen]
    omega

theorem corr_matrix_none_aux (v : List Record) (m₁ m₂ : Metric)
    (h : v.length < 2 ∨ sxy (col m₁ v) (col m₁ v) = 0 ∨
      sxy (col m₂ v) (col m₂ v) = 0) :
    corr_matrix v m₁ m₂ = none := by
  unfold corr_matrix corrEntry
  rw [if_pos]
  rcases h with h | h | h
  · left
    simpa [col] using h
  · right; left; exact h
  · right; right; exact h

/-- C7: for every filtered view, the correlation matrix is symmetric; a
diagonal entry is 1 whenever it is defined (at least two rows and nonzero
variance); and any entry involving a zero-variance metric, or computed over
fewer than two rows, is a NaN ("no data") cell, not a number. -/
theorem corr_matrix_props (v : List Record) :
    (∀ m₁ m₂ : Metric, corr_matrix v m₁ m₂ = corr_matrix v m₂ m₁) ∧
      (∀ m : Metric, 2 ≤ v.length → sxy (col m v) (col m v) ≠ 0 →
        corr_matrix v m m = some 1) ∧
      (∀ m₁ m₂ : Metric,
        (v.length < 2 ∨ sxy (col m₁ v) (col m₁ v) = 0 ∨
          sxy (col m₂ v) (col m₂ v) = 0) →
        corr_matrix v m₁ m₂ = none) :=
  ⟨fun m₁ m₂ => corr_matrix_symm_aux v m₁ m₂,
    fun m h2 hS => corr_matrix_diag_aux v m h2 hS,
    fun m₁ m₂ h => corr_matrix_none_aux v m₁ m₂ h⟩

/-- The first two records of the spec dataset: adoption varies (variance
nonzero) while job loss is constant (variance zero). -/
def twoRowView : List Record :=
  [⟨2020, "USA", "Media", "GPT-4", "Strict", 10, 5, 20, 50⟩,
    ⟨2021, "USA", "Media", "GPT-4", "Strict", 20, 5, 30, 60⟩]

theorem corr_matrix_props_witness :
    corr_matrix twoRowView Metric.adoption Metric.jobLoss =
        corr_matrix twoRowView Metric.jobLoss Metric.adoption ∧
      corr_matrix twoRowView Metric.adoption Metric.adoption = some 1 ∧
      corr_matrix twoRowView Metric.adoption Metric.jobLoss = none :=
  ⟨(corr_matrix_props twoRowView).1 Metric.adoption Metric.jobLoss,
    (corr_matrix_props twoRowView).2.1 Metric.adoption (by decide)
      (by norm_num [sxy, colMean, col, twoRowView, Metric.get]),
    (corr_matrix_props twoRowView).2.2 Metric.adoption Metric.jobLoss
      (Or.inr (Or.inr
        (by norm_num [sxy, colMean, col, twoRowView, Metric.get])))⟩
